import Mathlib

/-!
Verification of the AOC2025 repository cores against its specification.

Shallow embedding of:
* `src/day1/day1.cpp` — the `Dial` class (circular counter on modulus 100
  with zero-landing and zero-pass counting);
* `src/day4/day4.cpp` — the `Map` class (rectangular grid parser and
  neighbor-accessibility scanner).

Machine integers (`std::uint32_t`) are modelled as `Nat`.  Wherever the C++
arithmetic can wrap or truncate in a way a theorem below depends on, the
wrap is written explicitly (`% 4294967296`); the remaining spots are noted
in comments next to the definition they concern.
-/

namespace AOC2025

/-! ## Day 1: the `Dial` class -/

/-- The private `Dial::Transform` struct: a parsed rotation token.
`direction = true` means clockwise (`R`), `false` counterclockwise (`L`).
`size` holds the `std::uint32_t` magnitude. -/
structure Transform where
  is_valid : Bool
  direction : Bool
  size : Nat
deriving DecidableEq

/-- State of a `Dial` object: the three `std::uint32_t` member variables.
The counters are modelled as `Nat` without a `% 2^32` wrap: every theorem
below observes them only at values far below `2^32`, where the uint32 and
`Nat` semantics coincide. -/
structure Dial where
  zero_count : Nat
  passes_zero_count : Nat
  position : Nat
deriving DecidableEq

/-- A default-constructed `Dial`: position 50, both counters 0. -/
def Dial.init : Dial := { zero_count := 0, passes_zero_count := 0, position := 50 }

/-- Decimal value of a digit string, as computed by `std::stoul` on an
in-range input.  For values at or above `2^64` the real `stoul` throws
`std::out_of_range` inside the `noexcept` member, i.e. the program
terminates; that abort path is NOT modelled here (the value is kept as a
plain `Nat`).  Accordingly, the one theorem whose conclusion depends on
the parsed value of an arbitrary digit string,
`dial_transform_valid_position`, restricts its quantification to
magnitudes below `2^64`, where model and program agree; the remaining
theorems use concrete small tokens, tokens the regex rejects before
`stoul` is ever called, or (the safety invariant) observe no completed
rotation that an aborted execution would lack. -/
def digitsToNat (ds : List Char) : Nat :=
  ds.foldl (fun acc c => 10 * acc + (c.toNat - ('0').toNat)) 0

/-- `Dial::is_valid_transform`: matches the token against the regex
`^([LR])([0-9]+)$`.  On a match, `direction` records whether the letter is
`R` and `size` is the magnitude cast to `std::uint32_t`, i.e. the decimal
value of the digits reduced modulo `2^32 = 4294967296`.  Caveat: for a
matching token whose digits exceed `2^64 - 1` the real program never
reaches the cast — `std::stoul` throws and the `noexcept` member
terminates the program (see `digitsToNat`); here such a token still
parses, so theorems about the parsed value must stay below `2^64`. -/
def is_valid_transform (raw : List Char) : Transform :=
  match raw with
  | [] => { is_valid := false, direction := false, size := 0 }
  | c :: rest =>
    if (c == 'L' || c == 'R') && (!rest.isEmpty) && rest.all Char.isDigit then
      { is_valid := true, direction := c == 'R',
        size := digitsToNat rest % 4294967296 }
    else
      { is_valid := false, direction := false, size := 0 }

/-- `Dial::passes_zero`: does the rotation reach or cross position zero?
The C++ compares against `100 - m_position` (uint32) for clockwise and
`m_position` for counterclockwise; for `m_position < 100` — the invariant
every reachable state satisfies, see `transformSeq_position_lt` — the
uint32 subtraction agrees with the `Nat` subtraction used here. -/
def passes_zero (pos : Nat) (t : Transform) : Bool :=
  decide (t.size ≥ (if t.direction then 100 - pos else pos))

/-- `Dial::zero_passes`: number of times the rotation crosses or lands on
zero.  The final `-` is a uint32 subtraction in the source; it never
underflows, because whenever the subtrahend is 1 (position 0, direction
counterclockwise) the middle `passes_zero` term is also 1, so the `Nat`
truncated subtraction coincides with it. -/
def zero_passes (pos : Nat) (t : Transform) : Nat :=
  if !(passes_zero pos t) then 0
  else
    let divisor := t.size / 100
    let remainder := t.size % 100
    divisor
      + (passes_zero pos { is_valid := t.is_valid, direction := t.direction,
                           size := remainder }).toNat
      - (pos == 0 && !t.direction).toNat

/-- `Dial::transform(std::string_view)`: parse the token; if valid, add
the zero passes, advance the position modulo 100 and bump the landing
counter when the new position is 0; otherwise change nothing.  The C++
returns `m_position`, i.e. the `position` field of the result. -/
def Dial.transform (d : Dial) (raw_transform : List Char) : Dial :=
  let t := is_valid_transform raw_transform
  if t.is_valid then
    let position := (d.position
      + (if t.direction then t.size % 100 else 100 - t.size % 100)) % 100
    { zero_count := d.zero_count + (if position = 0 then 1 else 0),
      passes_zero_count := d.passes_zero_count + zero_passes d.position t,
      position := position }
  else d

/-- `Dial::transform(const std::vector<std::string_view>&)`: apply
`transform` to each token in order; the C++ returns `m_position` of the
final state. -/
def Dial.transformSeq (d : Dial) (raw_transforms : List (List Char)) : Dial :=
  raw_transforms.foldl Dial.transform d

/-! ## Day 4: the `Map` class -/

/-- The `ObjType` enum describing a grid cell. -/
inductive ObjType where
  | NONE
  | PAPER
  | ACCESSIBLE_PAPER
  | INVALID
deriving DecidableEq

/-- The C locale `isspace` used by the source through `std::isspace`. -/
def cIsSpace (c : Char) : Bool :=
  c == ' ' || c == '\t' || c == '\n' || c == '\x0b' || c == '\x0c' || c == '\r'

/-- `Map::measure_dimensions`: derive `(width, height)` from the raw text.
Height is the number of whitespace characters, plus one when the last
character is not a newline; width is the length of the first nonempty
line, and all nonempty lines must have equal length.  The source's
`assert`s (and the undefined `back()` on empty input) are modelled as
`none`. -/
def measure_dimensions (unprocessed_map : List Char) : Option (Nat × Nat) :=
  match unprocessed_map.getLast? with
  | none => none
  | some lastChar =>
    let height := (unprocessed_map.filter cIsSpace).length
      + (if lastChar == '\n' then 0 else 1)
    if height = 0 then none
    else
      let line_lengths := ((unprocessed_map.splitOn '\n').filter
        (fun line => line.length ≠ 0)).map List.length
      match line_lengths with
      | [] => none
      | w :: rest =>
        if (line_lengths.zip rest).all (fun p => p.1 == p.2) then
          some (w, height)
        else none

/-- `Map::initialise_map`: drop whitespace, classify each remaining
character (`.` empty, `@` paper, anything else `INVALID`), and check the
cell count against `width * height` (the source's `assert`, modelled as
`none`). -/
def initialise_map (width height : Nat) (map_data : List Char) :
    Option (List ObjType) :=
  let m := (map_data.filter (fun c => !cIsSpace c)).map (fun c =>
    if c == '.' then ObjType.NONE
    else if c == '@' then ObjType.PAPER
    else ObjType.INVALID)
  if m.length = width * height then some m else none

/-- The value of `m_map[j * m_width + i]` compared against `PAPER`, as
computed by `Map::is_paper` via the unchecked `operator[]`.  An index at
or beyond the end of the vector is undefined behaviour in the source; the
`getD` default stands in for it and is never relied on by a theorem (all
in-bounds uses below have the index inside the vector). -/
def is_paper_val (W : Nat) (cells : List ObjType) (i j : Nat) : Bool :=
  cells.getD (j * W + i) ObjType.INVALID == ObjType.PAPER

/-- `Map::at`: bounds-checked element access.  Both `throw
std::out_of_range` paths and a failing `std::vector::at` are modelled as
`none`. -/
def at_cells (W H : Nat) (cells : List ObjType) (i j : Nat) :
    Option ObjType :=
  if W ≤ i then none
  else if H ≤ j then none
  else cells.get? (j * W + i)

/-- `Map::is_accessible_paper` on the raw fields.  Faithful to the
source, including the neighbor mask initialiser `std::bitset<8>
valid_position_mask{ 11111111 }`: the literal is DECIMAL, so bit k of the
mask is bit k of 11111111 = 0b101010011000101011000111 — its low byte is
199 = 0b11000111, leaving bits 3, 4 and 5 (the left, right and
lower-left neighbors) cleared from the start.  The border checks are the
else-if chains of the source. -/
def is_accessible_paper_core (W H : Nat) (cells : List ObjType)
    (i j : Nat) : Option Bool :=
  match at_cells W H cells i j with
  | none => none
  | some v =>
    if v ≠ ObjType.PAPER then some false
    else
      let initial_mask : Nat → Bool := fun k => 11111111 / 2 ^ k % 2 == 1
      let max_i := W - 1
      let max_j := H - 1
      let border_i : Nat → Bool := fun k =>
        if i = 0 then !(k == 0 || k == 3 || k == 5)
        else if i = max_i then !(k == 2 || k == 4 || k == 7)
        else true
      let border_j : Nat → Bool := fun k =>
        if j = 0 then !(k == 0 || k == 1 || k == 2)
        else if j = max_j then !(k == 5 || k == 6 || k == 7)
        else true
      let mask : Nat → Bool := fun k => initial_mask k && border_i k && border_j k
      let b0 : Bool := if mask 0 then is_paper_val W cells (i - 1) (j - 1) else false
      let b1 : Bool := if mask 1 then is_paper_val W cells i (j - 1) else false
      let b2 : Bool := if mask 2 then is_paper_val W cells (i + 1) (j - 1) else false
      let b3 : Bool := if mask 3 then is_paper_val W cells (i - 1) j else false
      let b4 : Bool := if mask 4 then is_paper_val W cells (i + 1) j else false
      let b5 : Bool := if mask 5 then is_paper_val W cells (i - 1) (j + 1) else false
      let b6 : Bool := if mask 6 then is_paper_val W cells i (j + 1) else false
      let b7 : Bool := if mask 7 then is_paper_val W cells (i + 1) (j + 1) else false
      let count := b0.toNat + b1.toNat + b2.toNat + b3.toNat + b4.toNat
        + b5.toNat + b6.toNat + b7.toNat
      some (decide (count < 4))

/-- `Map::process_map`: the double loop over `i < W`, `j < H` writing
`accessible_map[j*W + i]`, re-expressed over the linear index
`n = j*W + i` (so `i = n % W`, `j = n / W`; the loop order does not
matter as the writes are independent).  For in-range indices the
`is_accessible_paper` call always succeeds (the `at` bounds hold), so the
`getD false` on its result is never exercised in a constructed map. -/
def process_map (W H : Nat) (cells : List ObjType) : List ObjType :=
  (List.range (W * H)).map (fun n =>
    if (is_accessible_paper_core W H cells (n % W) (n / W)).getD false then
      ObjType.ACCESSIBLE_PAPER
    else cells.getD n ObjType.NONE)

/-- The `Map` class: the five member variables. -/
structure Map where
  width : Nat
  height : Nat
  map : List ObjType
  accessible_map : List ObjType
  accessible_paper : Nat
deriving DecidableEq

/-- `Map::Map(std::string_view)`: measure, parse, classify, and fold the
accessible-paper count.  A failing `assert` anywhere is `none`. -/
def Map.make (map_data : List Char) : Option Map :=
  match measure_dimensions map_data with
  | none => none
  | some wh =>
    match initialise_map wh.1 wh.2 map_data with
    | none => none
    | some cells =>
      let acc := process_map wh.1 wh.2 cells
      some { width := wh.1, height := wh.2, map := cells,
             accessible_map := acc,
             accessible_paper := acc.foldl
               (fun sum t => sum + (if t == ObjType.ACCESSIBLE_PAPER then 1 else 0)) 0 }

/-- `Map::at` as a method. -/
def Map.at (m : Map) (i j : Nat) : Option ObjType :=
  at_cells m.width m.height m.map i j

/-- `Map::is_paper`: unchecked `operator[]` read compared with `PAPER`.
For an index inside the vector this returns the (possibly wrong-row)
element; an index at or beyond the vector size is undefined behaviour,
modelled as `none`. -/
def Map.is_paper (m : Map) (i j : Nat) : Option Bool :=
  if j * m.width + i < m.map.length then some (is_paper_val m.width m.map i j)
  else none

/-- `Map::is_accessible_paper` as a method. -/
def Map.is_accessible_paper (m : Map) (i j : Nat) : Option Bool :=
  is_accessible_paper_core m.width m.height m.map i j

/-- The fixed 10×10 `test_input` grid of `src/day4/day4.cpp`. -/
def test_input : List Char :=
  ("..@@.@@@@.\n@@@.@.@.@@\n@@@@@.@.@@\n@.@@@@..@.\n@@.@@@@.@@\n.@@@@@@@.@\n.@.@.@.@@@\n@.@@@.@@@@\n.@@@@@@@@.\n@.@.@@@.@.\n").toList

/-- The 10-token sequence of `verify()` in `src/day1/day1.cpp`. -/
def day1_verify_transforms : List (List Char) :=
  [("L68").toList, ("L30").toList, ("R48").toList, ("L5").toList,
   ("R60").toList, ("L55").toList, ("L1").toList, ("L99").toList,
   ("R14").toList, ("L82").toList]

/-- A 3×3 cross of marked cells: the center has exactly 4 marked Moore
neighbors (up, left, right, down). -/
def grid3 : List Char := (".@.\n@@@\n.@.\n").toList

/-- A 2×2 grid whose cells parse to `[NONE, PAPER, PAPER, PAPER]`. -/
def grid2 : List Char := (".@\n@@\n").toList

/-- A 2×2 grid whose first character is outside the alphabet. -/
def gridHash : List Char := ("#@\n@@\n").toList

/-- Refinement-comparison definition following the spec's words, for
claim C1: the Moore-neighborhood (8-connected) marked-neighbor count of
cell `(i, j)` — among the up-to-8 horizontally, vertically and diagonally
adjacent positions, those inside the grid whose cell is marked, with
off-grid neighbor positions excluded from the count. -/
def spec_moore_marked_count (m : Map) (i j : Nat) : Nat :=
  (([(-1, -1), (0, -1), (1, -1), (-1, 0), (1, 0), (-1, 1), (0, 1), (1, 1)]
      : List (Int × Int)).filter
    (fun d =>
      let x := (i : Int) + d.1
      let y := (j : Int) + d.2
      decide (0 ≤ x) && decide (x < (m.width : Int)) && decide (0 ≤ y)
        && decide (y < (m.height : Int))
        && (m.map.getD (y.toNat * m.width + x.toNat) ObjType.INVALID
            == ObjType.PAPER))).length

/-! ## Helper lemmas -/

/-- A single `Dial::transform` keeps the position below the modulus. -/
theorem Dial.transform_position_lt (d : Dial) (s : List Char)
    (h : d.position < 100) : (d.transform s).position < 100 := by
  unfold Dial.transform
  by_cases hv : (is_valid_transform s).is_valid = true
  · simp only [hv, if_true]
    omega
  · simp only [Bool.not_eq_true] at hv
    simp [hv, h]

/-- Every state reachable by a token sequence from a position below 100
still has its position below 100. -/
theorem Dial.transformSeq_position_lt (ts : List (List Char)) :
    ∀ d : Dial, d.position < 100 → (d.transformSeq ts).position < 100 := by
  induction ts with
  | nil => intro d h; exact h
  | cons t rest ih =>
    intro d h
    have step := ih (d.transform t) (d.transform_position_lt t h)
    simpa [Dial.transformSeq, List.foldl] using step

/-! ## Claim theorems -/

/-- C2: starting from position 0 on the modulus-100 dial, a single
rotation of magnitude 469 yields a zero-pass count of 4, both for the
counterclockwise token L469 and the clockwise token R469. -/
theorem dial_zero_pass_count_469 :
    ({ Dial.init with position := 0 }.transform
        (("L469").toList)).passes_zero_count = 4
    ∧ ({ Dial.init with position := 0 }.transform
        (("R469").toList)).passes_zero_count = 4 := by decide

/-- C4: for every sequence of rotation tokens (valid or not) applied from
the default-constructed dial, the position stays in [0, 100).  Since every
prefix of a sequence is itself a sequence, the universal quantification
over `ts` covers the position after every individual rotation as well as
at the end; the lower bound 0 ≤ position holds definitionally in ℕ. -/
theorem dial_position_invariant (ts : List (List Char)) :
    (Dial.init.transformSeq ts).position < 100 :=
  Dial.transformSeq_position_lt ts Dial.init (by decide)

/-- C5: a malformed token (one the regex rejects) leaves the dial state
unchanged, the returned position is the unchanged position, and
`transform` over a vector continues past it: dropping the malformed token
from the front of a sequence does not change the result. -/
theorem dial_malformed_token_ignored (d : Dial) (s : List Char)
    (h : (is_valid_transform s).is_valid = false) :
    d.transform s = d ∧ (d.transform s).position = d.position
    ∧ ∀ ts : List (List Char), d.transformSeq (s :: ts) = d.transformSeq ts := by
  have h1 : d.transform s = d := by
    unfold Dial.transform
    simp [h]
  refine ⟨h1, by rw [h1], fun ts => ?_⟩
  simp [Dial.transformSeq, List.foldl, h1]

/-- Witness for C5 at the concrete malformed token X5. -/
theorem dial_malformed_token_ignored_witness :
    Dial.init.transform (("X5").toList) = Dial.init
    ∧ Dial.init.transformSeq [("X5").toList, ("R1").toList]
        = Dial.init.transformSeq [("R1").toList] :=
  ⟨(dial_malformed_token_ignored Dial.init (("X5").toList) (by decide)).1,
   (dial_malformed_token_ignored Dial.init (("X5").toList)
      (by decide)).2.2 [("R1").toList]⟩

/-- C10: applying the fixed 10-token sequence of `verify()` from the
default-constructed dial (position 50) produces the successive positions
82, 52, 0, 95, 55, 0, 99, 0, 14, 32 and a final zero-landing count of 3. -/
theorem dial_verify_sequence :
    ((List.range 10).map (fun k =>
        (Dial.init.transformSeq (day1_verify_transforms.take (k + 1))).position))
      = [82, 52, 0, 95, 55, 0, 99, 0, 14, 32]
    ∧ (Dial.init.transformSeq day1_verify_transforms).zero_count = 3 := by
  decide

/-- C3 counterexample: the token R4294967296 is valid (letter R, digits
only) and its magnitude is 2^32, but the `std::uint32_t` cast truncates
it to 0, so from the initial position 50 the dial stays at 50 — while
(50 + 4294967296) mod 100 = 46.  The claim "new position = (p + m) mod
modulus" therefore fails at this token. -/
theorem dial_transform_truncation_cex :
    (Dial.init.transform (("R4294967296").toList)).position = 50
    ∧ (is_valid_transform (("R4294967296").toList)).is_valid = true
    ∧ digitsToNat ((("R4294967296").toList).tail) = 4294967296
    ∧ (50 + 4294967296) % 100 = 46 := by decide

/-- C3 (amended): for every valid rotation token whose magnitude is
below 2^64 (beyond that bound `std::stoul` throws inside the `noexcept`
parser and the program terminates without performing any update, so no
position is asserted there), with the magnitude first reduced modulo
2^32 (the `std::uint32_t` cast applied by the parser), `transform` from a
position p < 100 sets the position to (p + m) mod 100 for a clockwise
token and (p − m) mod 100 for a counterclockwise one; the C++ returns
exactly this `position` field. -/
theorem dial_transform_valid_position (d : Dial) (hp : d.position < 100)
    (c : Char) (ds : List Char) (hc : c = 'L' ∨ c = 'R') (hne : ds ≠ [])
    (hdig : ds.all Char.isDigit = true)
    (hb : digitsToNat ds < 18446744073709551616) :
    ((d.transform (c :: ds)).position : Int)
      = (if c = 'R'
         then (d.position : Int) + ((digitsToNat ds % 4294967296 : Nat) : Int)
         else (d.position : Int) - ((digitsToNat ds % 4294967296 : Nat) : Int))
        % 100 := by
  have hne2 : ds.isEmpty = false := by
    cases ds with
    | nil => exact absurd rfl hne
    | cons a l => rfl
  have hv : is_valid_transform (c :: ds)
      = { is_valid := true, direction := c == 'R',
          size := digitsToNat ds % 4294967296 } := by
    rcases hc with h | h <;> subst h <;>
      simp [is_valid_transform, hne2, hdig]
  rcases hc with h | h <;> subst h
  · rw [if_neg (by decide)]
    unfold Dial.transform
    rw [hv]
    simp only [show (('L' : Char) == 'R') = false from rfl]
    simp only [Bool.false_eq_true, if_false, if_true]
    generalize digitsToNat ds = n
    omega
  · rw [if_pos rfl]
    unfold Dial.transform
    rw [hv]
    simp only [show (('R' : Char) == 'R') = true from rfl]
    simp only [if_true]
    generalize digitsToNat ds = n
    omega

/-- Witness for C3 (amended) at the concrete token R68 from position 50. -/
theorem dial_transform_valid_position_witness :
    ((Dial.init.transform ('R' :: ("68").toList)).position : Int)
      = (if ('R' : Char) = 'R'
         then (Dial.init.position : Int)
            + ((digitsToNat (("68").toList) % 4294967296 : Nat) : Int)
         else (Dial.init.position : Int)
            - ((digitsToNat (("68").toList) % 4294967296 : Nat) : Int))
        % 100 :=
  dial_transform_valid_position Dial.init (by decide) 'R' (("68").toList)
    (Or.inr rfl) (by decide) (by decide) (by decide)

/-- C6 counterexample: at position 0 the valid magnitude-0 token R0
leaves the position at 0, so the zero-landing counter increments from 0
to 1 — the rotation is not a complete no-op as the claim states. -/
theorem dial_magnitude_zero_cex :
    ({ Dial.init with position := 0 }.transform (("R0").toList)).zero_count = 1
    ∧ ({ Dial.init with position := 0 } : Dial).zero_count = 0
    ∧ (is_valid_transform (("R0").toList)).is_valid = true
    ∧ (is_valid_transform (("R0").toList)).size = 0 := by decide

/-- C6 (amended): for every dial state with position below 100 and either
direction, a valid rotation of magnitude 0 leaves the position and the
zero-pass count unchanged, and leaves the zero-landing count unchanged
unless the position is 0, in which case that counter increments by one
(the dial "lands" on the zero it already points at). -/
theorem dial_magnitude_zero_transform (d : Dial) (hp : d.position < 100)
    (s : List Char) (hv : (is_valid_transform s).is_valid = true)
    (hz : (is_valid_transform s).size = 0) :
    (d.transform s).position = d.position
    ∧ (d.transform s).passes_zero_count = d.passes_zero_count
    ∧ (d.transform s).zero_count
        = d.zero_count + (if d.position = 0 then 1 else 0) := by
  rcases hts : is_valid_transform s with ⟨v, dir, sz⟩
  rw [hts] at hv hz
  simp only at hv hz
  subst hv
  subst hz
  unfold Dial.transform
  rw [hts]
  simp only [if_true]
  have hmod : d.position % 100 = d.position := Nat.mod_eq_of_lt hp
  cases dir
  · have h100 : (d.position + 100) % 100 = d.position := by omega
    by_cases h0 : d.position = 0
    · simp [zero_passes, passes_zero, h0]
    · have hpz : passes_zero d.position
          { is_valid := true, direction := false, size := 0 } = false := by
        simp [passes_zero]
        omega
      simp [zero_passes, hpz, h100, h0]
  · have hpz : passes_zero d.position
        { is_valid := true, direction := true, size := 0 } = false := by
      simp [passes_zero]
      omega
    simp [zero_passes, hpz, hmod]

/-- Witness for C6 (amended) at the dial's initial state (position 50)
and the concrete token L0. -/
theorem dial_magnitude_zero_transform_witness :
    (Dial.init.transform (("L0").toList)).position = Dial.init.position
    ∧ (Dial.init.transform (("L0").toList)).passes_zero_count
        = Dial.init.passes_zero_count
    ∧ (Dial.init.transform (("L0").toList)).zero_count
        = Dial.init.zero_count + (if Dial.init.position = 0 then 1 else 0) :=
  dial_magnitude_zero_transform Dial.init (by decide) (("L0").toList)
    (by decide) (by decide)

set_option maxRecDepth 100000 in
/-- C1 (code bug): on the 3×3 cross grid the center cell (1, 1) is
marked and has exactly 4 marked Moore neighbors, so per the claim it must
not be accessible — yet the code reports it accessible: the neighbor mask
initialiser `std::bitset<8>{ 11111111 }` uses a decimal literal whose low
byte clears bits 3, 4 and 5, so the left, right and lower-left neighbors
are never counted (here the code counts 2 of the 4 marked neighbors).
The same bug makes the code's own `test_problem_1` assertion fail, see
`test_grid_accessible_count`. -/
theorem grid_accessibility_mask_bug :
    (Map.make grid3).map (fun m => m.is_accessible_paper 1 1)
      = some (some true)
    ∧ (Map.make grid3).map (fun m => spec_moore_marked_count m 1 1) = some 4
    ∧ (Map.make grid3).map (fun m => m.is_paper 1 1) = some (some true) := by
  decide

set_option maxRecDepth 100000 in
/-- C9 (code bug): on the documented 10×10 test grid the code computes an
accessible count of 38, not the 13 that the claim, the source's own
`assert( test.accessible_paper() == test_result_1 )` and its
`test_accessible_paper_rolls` diagram all expect; the cause is the
decimal bitset initialiser described at `is_accessible_paper_core`.  (The
full 8-neighbor Moore count does yield 13 on this grid.) -/
theorem test_grid_accessible_count :
    (Map.make test_input).map Map.accessible_paper = some 38
    ∧ ¬ (Map.make test_input).map Map.accessible_paper = some 13 := by
  decide

/-- C7 counterexample: on the parsed 2×2 grid, `is_paper` queried at
x = width (= 2), y = 0 returns a value instead of failing: the unchecked
`operator[]` reads linear index `0 * width + 2`, which is the first cell
of the second row, a marked cell — so the result is `true`. -/
theorem map_is_paper_unchecked_cex :
    (Map.make grid2).map (fun m => m.is_paper 2 0) = some (some true)
    ∧ (Map.make grid2).map Map.width = some 2 := by decide

/-- C7 (amended): `is_accessible_paper` is bounds-checked through
`Map::at` and fails with OutOfRange (modelled `none`) on every map
whenever x ≥ width or y ≥ height; `is_paper`, however, performs no bounds
check — at x = width on the parsed 2×2 grid it returns the value at
linear index y·width + x rather than failing. -/
theorem map_bounds_check_amended :
    (∀ (m : Map) (i j : Nat), m.width ≤ i ∨ m.height ≤ j →
      m.is_accessible_paper i j = none)
    ∧ (Map.make grid2).map (fun m => m.is_paper 2 0) = some (some true) := by
  constructor
  · intro m i j h
    unfold Map.is_accessible_paper is_accessible_paper_core at_cells
    rcases h with h | h
    · simp [h]
    · by_cases h2 : m.width ≤ i
      · simp [h2]
      · simp [h2, h]
  · decide

/-- Witness for the universal part of C7 (amended) at a concrete map and
the out-of-bounds coordinate (2, 0). -/
theorem map_bounds_check_amended_witness :
    Map.is_accessible_paper
      { width := 2, height := 2,
        map := [ObjType.NONE, ObjType.PAPER, ObjType.PAPER, ObjType.PAPER],
        accessible_map := [], accessible_paper := 0 } 2 0 = none :=
  map_bounds_check_amended.1 _ 2 0 (Or.inl (by decide))

/-- C8 counterexample: the raw text `#@\n@@\n` contains `#`, a
non-whitespace character outside the recognized alphabet, yet
construction succeeds (no assertion rejects Invalid cells) and the
produced grid contains an Invalid cell. -/
theorem map_invalid_char_cex :
    (Map.make gridHash).isSome = true
    ∧ (Map.make gridHash).map (fun m => m.map.contains ObjType.INVALID)
        = some true := by decide

/-- C8 (amended): a non-whitespace character outside the alphabet is
parsed as an Invalid cell and construction succeeds whenever the
dimension assertions hold: on `#@\n@@\n` the parsed cells are
[Invalid, Paper, Paper, Paper]. -/
theorem map_invalid_char_parses :
    (Map.make gridHash).map Map.map
      = some [ObjType.INVALID, ObjType.PAPER, ObjType.PAPER, ObjType.PAPER] := by
  decide

end AOC2025
